import Mathlib

/-!
Verification of the shader/program compilation core of the `learn_opengl`
repository (`src/program.rs`, `src/gl_object.rs`).

The OpenGL driver is modelled as an oracle (`Driver`) deciding compile/link
status and info-log buffer contents, and the mutable GL context is a state
(`GlState`) holding a fresh-handle counter, the active-program slot and the
trace of GPU calls issued so far.  Every Rust function of the core is embedded
as an explicit state-passing Lean function; Rust `Drop` impls become explicit
`drop` functions inserted exactly where Rust's scope rules run them.
-/

/-- `Handle = GLuint` from `gl_object.rs`: modelled as a natural number.
`0` is the "no object" sentinel. -/
abbrev Handle : Type := Nat

/-- The shader stage kinds of `enum ShaderType` in `program.rs`. -/
inductive ShaderType where
  | Vertex
  | Fragment
  | Geometry
  | TessControl
  | TessEvaluation
  | Compute
deriving DecidableEq, Repr

/-- One GPU call, as issued through the `gl` bindings.  Pure status queries
(`GetShaderiv`/`GetProgramiv`/info-log reads) do not mutate driver state and
are not traced. -/
inductive GlCall where
  | createShader (ty : ShaderType) (id : Handle)
  | shaderSource (id : Handle) (src : List Nat)
  | compileShader (id : Handle)
  | deleteShader (id : Handle)
  | createProgram (id : Handle)
  | attachShader (pid : Handle) (sid : Handle)
  | linkProgram (pid : Handle)
  | deleteProgram (id : Handle)
  | useProgram (id : Handle)
deriving DecidableEq, Repr

/-- The state of the GL context: a counter producing fresh object handles,
the process-wide "currently active program" slot (`0` = none), and the
ordered trace of GPU calls made so far. -/
structure GlState where
  nextId : Nat
  active : Handle
  trace : List GlCall
deriving DecidableEq, Repr

/-- `gl::CreateShader`: allocates a fresh shader object handle. -/
def glCreateShader (ty : ShaderType) (s : GlState) : Handle × GlState :=
  (s.nextId, { s with nextId := s.nextId + 1,
                      trace := s.trace ++ [GlCall.createShader ty s.nextId] })

/-- `gl::ShaderSource`. -/
def glShaderSource (id : Handle) (src : List Nat) (s : GlState) : GlState :=
  { s with trace := s.trace ++ [GlCall.shaderSource id src] }

/-- `gl::CompileShader`. -/
def glCompileShader (id : Handle) (s : GlState) : GlState :=
  { s with trace := s.trace ++ [GlCall.compileShader id] }

/-- `gl::DeleteShader`. -/
def glDeleteShader (id : Handle) (s : GlState) : GlState :=
  { s with trace := s.trace ++ [GlCall.deleteShader id] }

/-- `gl::CreateProgram`: allocates a fresh program object handle. -/
def glCreateProgram (s : GlState) : Handle × GlState :=
  (s.nextId, { s with nextId := s.nextId + 1,
                      trace := s.trace ++ [GlCall.createProgram s.nextId] })

/-- `gl::AttachShader`. -/
def glAttachShader (pid sid : Handle) (s : GlState) : GlState :=
  { s with trace := s.trace ++ [GlCall.attachShader pid sid] }

/-- `gl::LinkProgram`. -/
def glLinkProgram (pid : Handle) (s : GlState) : GlState :=
  { s with trace := s.trace ++ [GlCall.linkProgram pid] }

/-- `gl::DeleteProgram`. -/
def glDeleteProgram (id : Handle) (s : GlState) : GlState :=
  { s with trace := s.trace ++ [GlCall.deleteProgram id] }

/-- `gl::UseProgram`: sets the active-program slot. -/
def glUseProgram (id : Handle) (s : GlState) : GlState :=
  { s with active := id, trace := s.trace ++ [GlCall.useProgram id] }

/-- The driver oracle: what the GPU driver answers for compile status,
link status and the raw bytes it writes into an info-log buffer.  Compile
results are a function of the stage kind and the submitted source bytes;
link results are a function of the ordered list of attached shader handles. -/
structure Driver where
  compileOk : ShaderType → List Nat → Bool
  shaderLogBuf : ShaderType → List Nat → List Nat
  linkOk : List Handle → Bool
  programLogBuf : List Handle → List Nat

/-- `std::ffi::CStr::from_bytes_with_nul`: succeeds exactly when the buffer
ends with a nul byte and contains no interior nul; returns the bytes without
the trailing nul. -/
def cstrFromBytesWithNul (buf : List Nat) : Option (List Nat) :=
  if buf.getLast? = some 0 ∧ ¬ buf.dropLast.contains 0 then some buf.dropLast
  else none

/-- The Unicode replacement character `U+FFFD` substituted by Rust's lossy
UTF-8 decoding. -/
def replChar : Char := Char.ofNat 0xFFFD

/-- Is `b` a UTF-8 continuation byte (`0x80..=0xBF`)? -/
def isCont (b : Nat) : Bool := decide (0x80 ≤ b ∧ b ≤ 0xBF)

/-- Lower bound for the first continuation byte after lead byte `b`
(UTF-8 shortest-form / surrogate-exclusion constraints). -/
def contLo (b : Nat) : Nat := if b = 0xE0 then 0xA0 else if b = 0xF0 then 0x90 else 0x80

/-- Upper bound for the first continuation byte after lead byte `b`. -/
def contHi (b : Nat) : Nat := if b = 0xED then 0x9F else if b = 0xF4 then 0x8F else 0xBF

/-- Decode one UTF-8 sequence (or one maximal invalid subpart) at the head
of the buffer, returning the decoded scalar (`none` for an invalid subpart)
and the number of bytes consumed (always at least 1 on nonempty input). -/
def utf8Step : List Nat → Option Char × Nat
  | [] => (none, 1)
  | b :: rest =>
    if b ≤ 0x7F then (some (Char.ofNat b), 1)
    else if 0xC2 ≤ b ∧ b ≤ 0xDF then
      match rest with
      | [] => (none, 1)
      | b1 :: _ =>
        if isCont b1 then (some (Char.ofNat ((b - 0xC0) * 0x40 + (b1 - 0x80))), 2)
        else (none, 1)
    else if 0xE0 ≤ b ∧ b ≤ 0xEF then
      match rest with
      | [] => (none, 1)
      | b1 :: rest1 =>
        if contLo b ≤ b1 ∧ b1 ≤ contHi b then
          match rest1 with
          | [] => (none, 2)
          | b2 :: _ =>
            if isCont b2 then
              (some (Char.ofNat ((b - 0xE0) * 0x1000 + (b1 - 0x80) * 0x40 + (b2 - 0x80))), 3)
            else (none, 2)
        else (none, 1)
    else if 0xF0 ≤ b ∧ b ≤ 0xF4 then
      match rest with
      | [] => (none, 1)
      | b1 :: rest1 =>
        if contLo b ≤ b1 ∧ b1 ≤ contHi b then
          match rest1 with
          | [] => (none, 2)
          | b2 :: rest2 =>
            if isCont b2 then
              match rest2 with
              | [] => (none, 3)
              | b3 :: _ =>
                if isCont b3 then
                  (some (Char.ofNat ((b - 0xF0) * 0x40000 + (b1 - 0x80) * 0x1000 +
                    (b2 - 0x80) * 0x40 + (b3 - 0x80))), 4)
                else (none, 3)
            else (none, 2)
        else (none, 1)
    else (none, 1)

/-- Iterate `utf8Step` over the buffer.  Each step consumes at least one
byte, so `fuel = l.length` always suffices; fuel only makes the recursion
structural. -/
def utf8DecodeRun : Nat → List Nat → List (Option Char)
  | 0, _ => []
  | _, [] => []
  | fuel + 1, b :: rest =>
    let st := utf8Step (b :: rest)
    st.1 :: utf8DecodeRun fuel (rest.drop (st.2 - 1))

/-- UTF-8 decoding with "maximal subpart" error marking, the scheme used by
Rust's `String::from_utf8_lossy` / `to_string_lossy`: each maximal invalid
subsequence yields one `none`; valid sequences yield their scalar value. -/
def utf8DecodeAux (l : List Nat) : List (Option Char) :=
  utf8DecodeRun l.length l

/-- Rust `String::from_utf8_lossy` on a byte buffer: invalid maximal
subparts become `U+FFFD`. -/
def utf8Lossy (l : List Nat) : List Char :=
  (utf8DecodeAux l).map (fun o => o.getD replChar)

/-- A byte buffer is valid UTF-8 exactly when lossy decoding marks no
invalid subpart (Rust's `str::from_utf8` succeeds). -/
def utf8IsValid (l : List Nat) : Bool :=
  (utf8DecodeAux l).all Option.isSome

/-- `.to_string_lossy().to_string()` applied to a `CStr`s bytes. -/
def lossyString (l : List Nat) : String := String.mk (utf8Lossy l)

deriving instance DecidableEq for Except

/-- `enum ShaderCreationError` from `program.rs`. -/
inductive ShaderCreationError where
  | InvalidSource
  | CompileError (log : String)
  | InvalidInfoLog
deriving DecidableEq, Repr

/-- `struct Shader { id: Handle }`. -/
structure Shader where
  id : Handle
deriving DecidableEq, Repr

/-- `impl Drop for Shader`: `gl::DeleteShader(self.id)`. -/
def Shader.drop (sh : Shader) (s : GlState) : GlState :=
  glDeleteShader sh.id s

/-- `Shader::new(ty, source)` from `program.rs`.  `source` is the UTF-8 byte
content of the Rust `&str`.  `CString::new` fails on an interior nul byte
(`InvalidSource`, before any GPU call); otherwise a shader object is created,
sourced and compiled, and on driver-reported failure the info log is read
back, with the local `Shader` value dropped by Rust on every early-return
error path. -/
def Shader.new (d : Driver) (ty : ShaderType) (source : List Nat) (s : GlState) :
    Except ShaderCreationError Shader × GlState :=
  if source.contains 0 then (Except.error ShaderCreationError.InvalidSource, s)
  else
    let (id, s1) := glCreateShader ty s
    let s2 := glCompileShader id (glShaderSource id source s1)
    if d.compileOk ty source then (Except.ok ⟨id⟩, s2)
    else
      match cstrFromBytesWithNul (d.shaderLogBuf ty source) with
      | none => (Except.error ShaderCreationError.InvalidInfoLog, Shader.drop ⟨id⟩ s2)
      | some bytes =>
        (Except.error (ShaderCreationError.CompileError (lossyString bytes)), Shader.drop ⟨id⟩ s2)

/-- `enum ProgramCreationError` from `program.rs`. -/
inductive ProgramCreationError where
  | LinkError (log : String)
  | InvalidInfoLog
deriving DecidableEq, Repr

/-- `struct Program { id: Handle }`. -/
structure Program where
  id : Handle
deriving DecidableEq, Repr

/-- `Program::activate`: `gl::UseProgram(self.id)`. -/
def Program.activate (p : Program) (s : GlState) : GlState :=
  glUseProgram p.id s

/-- `Program::deactivate`: `gl::UseProgram(0)`. -/
def Program.deactivate (p : Program) (s : GlState) : GlState :=
  glUseProgram 0 s

/-- `impl Drop for Program`: `self.deactivate()` then
`gl::DeleteProgram(self.id)`. -/
def Program.drop (p : Program) (s : GlState) : GlState :=
  glDeleteProgram p.id (p.deactivate s)

/-- `Program::link(shaders)` from `program.rs`: create a program object,
attach every shader in order, link, query link status; on failure read the
program info log and return the error, Rust dropping the local `Program`
(deactivate + delete) on the error paths. -/
def Program.link (d : Driver) (shaders : List Shader) (s : GlState) :
    Except ProgramCreationError Program × GlState :=
  let (pid, s1) := glCreateProgram s
  let s2 := shaders.foldl (fun st sh => glAttachShader pid sh.id st) s1
  let s3 := glLinkProgram pid s2
  if d.linkOk (shaders.map Shader.id) then (Except.ok ⟨pid⟩, s3)
  else
    match cstrFromBytesWithNul (d.programLogBuf (shaders.map Shader.id)) with
    | none => (Except.error ProgramCreationError.InvalidInfoLog, Program.drop ⟨pid⟩ s3)
    | some bytes =>
      (Except.error (ProgramCreationError.LinkError (lossyString bytes)), Program.drop ⟨pid⟩ s3)

/-- `enum SourceCompilerError` from `program.rs`. -/
inductive SourceCompilerError where
  | ShaderCreationError (e : ShaderCreationError)
  | ProgramCreationError (e : ProgramCreationError)
deriving DecidableEq, Repr

/-- Dropping a `Vec<Shader>`: Rust drops the elements front to back. -/
def dropShaders (l : List Shader) (s : GlState) : GlState :=
  l.foldl (fun st sh => Shader.drop sh st) s

/-- The `for` loop of `SourceCompiler::compile`: compile each source in
order, pushing each new `Shader` onto the vector; on the first failure
return the error together with the vector contents accumulated so far
(which Rust then drops on the early `?` return). -/
def SourceCompiler.compileAll (d : Driver) :
    List (ShaderType × List Nat) → GlState →
    Except (ShaderCreationError × List Shader) (List Shader) × GlState
  | [], s => (Except.ok [], s)
  | (ty, src) :: rest, s =>
    match Shader.new d ty src s with
    | (Except.error e, s1) => (Except.error (e, []), s1)
    | (Except.ok sh, s1) =>
      match SourceCompiler.compileAll d rest s1 with
      | (Except.error (e, pend), s2) => (Except.error (e, sh :: pend), s2)
      | (Except.ok shs, s2) => (Except.ok (sh :: shs), s2)

/-- `SourceCompiler::compile(shader_sources)` from `program.rs`: compile all
sources fail-fast, then hand the shader vector to `Program::link`; the local
`Vec<Shader>` is dropped on every exit path (early error return, link
failure, and success). -/
def SourceCompiler.compile (d : Driver) (shaderSources : List (ShaderType × List Nat))
    (s : GlState) : Except SourceCompilerError Program × GlState :=
  match SourceCompiler.compileAll d shaderSources s with
  | (Except.error (e, pend), s1) =>
    (Except.error (SourceCompilerError.ShaderCreationError e), dropShaders pend s1)
  | (Except.ok shaders, s1) =>
    match Program.link d shaders s1 with
    | (Except.ok p, s2) => (Except.ok p, dropShaders shaders s2)
    | (Except.error e, s2) =>
      (Except.error (SourceCompilerError.ProgramCreationError e), dropShaders shaders s2)

/-! ### Characterizations and counting helpers -/

/-- The error `Shader::new` returns when the driver reports compile failure:
`InvalidInfoLog` when the log buffer is not a well-formed nul-terminated
C string, otherwise `CompileError` with the lossily decoded log bytes. -/
def shaderFailErr (d : Driver) (ty : ShaderType) (src : List Nat) : ShaderCreationError :=
  match cstrFromBytesWithNul (d.shaderLogBuf ty src) with
  | none => ShaderCreationError.InvalidInfoLog
  | some bytes => ShaderCreationError.CompileError (lossyString bytes)

/-- The error (if any) `Shader::new` returns for a given stage and source,
as a pure function of the driver oracle. -/
def shaderNewErr (d : Driver) (ty : ShaderType) (src : List Nat) : Option ShaderCreationError :=
  if src.contains 0 then some ShaderCreationError.InvalidSource
  else if d.compileOk ty src then none
  else some (shaderFailErr d ty src)

/-- The error `Program::link` returns when the driver reports link failure. -/
def programFailErr (d : Driver) (ids : List Handle) : ProgramCreationError :=
  match cstrFromBytesWithNul (d.programLogBuf ids) with
  | none => ProgramCreationError.InvalidInfoLog
  | some bytes => ProgramCreationError.LinkError (lossyString bytes)

/-- Does this call create the shader object `i`? -/
def isCreateShaderOf (i : Handle) : GlCall → Bool
  | GlCall.createShader _ j => decide (j = i)
  | _ => false

/-- Does this call delete the shader object `i`? -/
def isDeleteShaderOf (i : Handle) : GlCall → Bool
  | GlCall.deleteShader j => decide (j = i)
  | _ => false

/-- Does this call create the program object `i`? -/
def isCreateProgramOf (i : Handle) : GlCall → Bool
  | GlCall.createProgram j => decide (j = i)
  | _ => false

/-- Does this call delete the program object `i`? -/
def isDeleteProgramOf (i : Handle) : GlCall → Bool
  | GlCall.deleteProgram j => decide (j = i)
  | _ => false

/-- Is this call a `CreateShader` call (for any stage, any handle)? -/
def isShaderCreation : GlCall → Bool
  | GlCall.createShader _ _ => true
  | _ => false

/-- Number of `CreateShader` events in a trace. -/
def numShaderCreations (t : List GlCall) : Nat := t.countP isShaderCreation

/-- Number of deletions of shader object `i` in a trace. -/
def countDeleteShader (i : Handle) (t : List GlCall) : Nat := t.countP (isDeleteShaderOf i)

/-- Number of creations of shader object `i` in a trace. -/
def countCreateShader (i : Handle) (t : List GlCall) : Nat := t.countP (isCreateShaderOf i)

/-- Number of creations of program object `i` in a trace. -/
def countCreateProgram (i : Handle) (t : List GlCall) : Nat := t.countP (isCreateProgramOf i)

/-- Number of deletions of program object `i` in a trace. -/
def countDeleteProgram (i : Handle) (t : List GlCall) : Nat := t.countP (isDeleteProgramOf i)

/-! ### Run lemmas: explicit forms of each operation -/

lemma Shader.new_nul {d : Driver} {ty : ShaderType} {src : List Nat} {s : GlState}
    (h : (0 : Nat) ∈ src) :
    Shader.new d ty src s = (Except.error ShaderCreationError.InvalidSource, s) := by
  simp [Shader.new, h]

lemma Shader.new_ok {d : Driver} {ty : ShaderType} {src : List Nat} {s : GlState}
    (h1 : (0 : Nat) ∉ src) (h2 : d.compileOk ty src = true) :
    Shader.new d ty src s = (Except.ok ⟨s.nextId⟩,
      { s with nextId := s.nextId + 1,
               trace := s.trace ++ [GlCall.createShader ty s.nextId,
                 GlCall.shaderSource s.nextId src, GlCall.compileShader s.nextId] }) := by
  simp [Shader.new, glCreateShader, glShaderSource, glCompileShader, h1, h2]

lemma Shader.new_fail {d : Driver} {ty : ShaderType} {src : List Nat} {s : GlState}
    (h1 : (0 : Nat) ∉ src) (h2 : d.compileOk ty src = false) :
    Shader.new d ty src s = (Except.error (shaderFailErr d ty src),
      { s with nextId := s.nextId + 1,
               trace := s.trace ++ [GlCall.createShader ty s.nextId,
                 GlCall.shaderSource s.nextId src, GlCall.compileShader s.nextId,
                 GlCall.deleteShader s.nextId] }) := by
  unfold Shader.new shaderFailErr
  cases hc : cstrFromBytesWithNul (d.shaderLogBuf ty src) <;>
    simp [glCreateShader, glShaderSource, glCompileShader, glDeleteShader, Shader.drop,
      h1, h2, hc]

lemma attachFold_eq (pid : Handle) (shaders : List Shader) (s : GlState) :
    shaders.foldl (fun st sh => glAttachShader pid sh.id st) s =
      { s with trace := s.trace ++ shaders.map (fun sh => GlCall.attachShader pid sh.id) } := by
  induction shaders generalizing s with
  | nil => simp
  | cons sh rest ih =>
    rw [List.foldl_cons, ih]
    simp [glAttachShader]

lemma Program.link_ok {d : Driver} {shaders : List Shader} {s : GlState}
    (h : d.linkOk (shaders.map Shader.id) = true) :
    Program.link d shaders s = (Except.ok ⟨s.nextId⟩,
      { s with nextId := s.nextId + 1,
               trace := s.trace ++ GlCall.createProgram s.nextId ::
                 (shaders.map (fun sh => GlCall.attachShader s.nextId sh.id) ++
                   [GlCall.linkProgram s.nextId]) }) := by
  simp [Program.link, glCreateProgram, glLinkProgram, attachFold_eq, h]

lemma Program.link_fail {d : Driver} {shaders : List Shader} {s : GlState}
    (h : d.linkOk (shaders.map Shader.id) = false) :
    Program.link d shaders s = (Except.error (programFailErr d (shaders.map Shader.id)),
      { s with nextId := s.nextId + 1, active := 0,
               trace := s.trace ++ GlCall.createProgram s.nextId ::
                 (shaders.map (fun sh => GlCall.attachShader s.nextId sh.id) ++
                   [GlCall.linkProgram s.nextId, GlCall.useProgram 0,
                    GlCall.deleteProgram s.nextId]) }) := by
  unfold Program.link programFailErr
  cases hc : cstrFromBytesWithNul (d.programLogBuf (shaders.map Shader.id)) <;>
    simp [glCreateProgram, glLinkProgram, attachFold_eq, Program.drop, Program.deactivate,
      glUseProgram, glDeleteProgram, h, hc]

lemma dropShaders_cons (sh : Shader) (rest : List Shader) (s : GlState) :
    dropShaders (sh :: rest) s = dropShaders rest (Shader.drop sh s) := rfl

lemma dropShaders_eq (l : List Shader) (s : GlState) :
    dropShaders l s =
      { s with trace := s.trace ++ l.map (fun sh => GlCall.deleteShader sh.id) } := by
  induction l generalizing s with
  | nil => simp [dropShaders]
  | cons sh rest ih =>
    rw [dropShaders_cons, ih]
    simp [Shader.drop, glDeleteShader]

/-- The `Vec<Shader>` contents alive at the moment `compileAll` returns:
the compiled shaders on success, the already-pushed shaders on failure. -/
def liveOf : Except (ShaderCreationError × List Shader) (List Shader) → List Shader
  | Except.ok shs => shs
  | Except.error (_, pend) => pend

lemma shaderFailErr_ne_invalid (d : Driver) (ty : ShaderType) (src : List Nat) :
    shaderFailErr d ty src ≠ ShaderCreationError.InvalidSource := by
  unfold shaderFailErr
  split <;> simp

lemma compileAll_cons_ok {d : Driver} {ty : ShaderType} {src : List Nat}
    {rest : List (ShaderType × List Nat)} {s s1 : GlState} {sh : Shader}
    (h : Shader.new d ty src s = (Except.ok sh, s1)) :
    SourceCompiler.compileAll d ((ty, src) :: rest) s =
      (match SourceCompiler.compileAll d rest s1 with
       | (Except.error (e, pend), s2) => (Except.error (e, sh :: pend), s2)
       | (Except.ok shs, s2) => (Except.ok (sh :: shs), s2)) := by
  simp [SourceCompiler.compileAll, h]

lemma compileAll_cons_err {d : Driver} {ty : ShaderType} {src : List Nat}
    {rest : List (ShaderType × List Nat)} {s s1 : GlState} {e : ShaderCreationError}
    (h : Shader.new d ty src s = (Except.error e, s1)) :
    SourceCompiler.compileAll d ((ty, src) :: rest) s = (Except.error (e, []), s1) := by
  simp [SourceCompiler.compileAll, h]

lemma Shader.new_counts_ok {d : Driver} {ty : ShaderType} {src : List Nat}
    {s s1 : GlState} {sh : Shader}
    (h : Shader.new d ty src s = (Except.ok sh, s1)) (i : Handle) :
    sh.id = s.nextId ∧
    countCreateShader i s1.trace =
      countCreateShader i s.trace + (if s.nextId = i then 1 else 0) ∧
    countDeleteShader i s1.trace = countDeleteShader i s.trace ∧
    countCreateProgram i s1.trace = countCreateProgram i s.trace ∧
    countDeleteProgram i s1.trace = countDeleteProgram i s.trace := by
  by_cases hnul : (0 : Nat) ∈ src
  · rw [Shader.new_nul hnul] at h
    simp at h
  · by_cases hok : d.compileOk ty src = true
    · rw [Shader.new_ok hnul hok] at h
      simp only [Prod.mk.injEq, Except.ok.injEq] at h
      obtain ⟨h1, h2⟩ := h
      subst h1
      subst h2
      simp [countCreateShader, countDeleteShader, countCreateProgram, countDeleteProgram,
        List.countP_append, List.countP_cons, isCreateShaderOf, isDeleteShaderOf,
        isCreateProgramOf, isDeleteProgramOf] <;> omega
    · rw [Shader.new_fail hnul (by simpa using hok)] at h
      simp at h

lemma Shader.new_counts_err {d : Driver} {ty : ShaderType} {src : List Nat}
    {s s1 : GlState} {e : ShaderCreationError}
    (h : Shader.new d ty src s = (Except.error e, s1)) (i : Handle) :
    countCreateShader i s1.trace + countDeleteShader i s.trace =
      countDeleteShader i s1.trace + countCreateShader i s.trace ∧
    countCreateProgram i s1.trace = countCreateProgram i s.trace ∧
    countDeleteProgram i s1.trace = countDeleteProgram i s.trace := by
  by_cases hnul : (0 : Nat) ∈ src
  · rw [Shader.new_nul hnul] at h
    simp only [Prod.mk.injEq] at h
    obtain ⟨-, h2⟩ := h
    subst h2
    omega
  · by_cases hok : d.compileOk ty src = true
    · rw [Shader.new_ok hnul hok] at h
      simp at h
    · rw [Shader.new_fail hnul (by simpa using hok)] at h
      simp only [Prod.mk.injEq] at h
      obtain ⟨-, h2⟩ := h
      subst h2
      simp [countCreateShader, countDeleteShader, countCreateProgram, countDeleteProgram,
        List.countP_append, List.countP_cons, isCreateShaderOf, isDeleteShaderOf,
        isCreateProgramOf, isDeleteProgramOf] <;> omega

lemma compileAll_counts (d : Driver) (srcs : List (ShaderType × List Nat)) :
    ∀ (s : GlState) (i : Handle),
      countCreateShader i (SourceCompiler.compileAll d srcs s).2.trace +
          countDeleteShader i s.trace =
        countDeleteShader i (SourceCompiler.compileAll d srcs s).2.trace +
          countCreateShader i s.trace +
          List.countP (fun sh => decide (sh.id = i))
            (liveOf (SourceCompiler.compileAll d srcs s).1) ∧
      countCreateProgram i (SourceCompiler.compileAll d srcs s).2.trace =
          countCreateProgram i s.trace ∧
      countDeleteProgram i (SourceCompiler.compileAll d srcs s).2.trace =
          countDeleteProgram i s.trace := by
  induction srcs with
  | nil =>
    intro s i
    simp [SourceCompiler.compileAll, liveOf]
    omega
  | cons p rest ih =>
    obtain ⟨ty, src⟩ := p
    intro s i
    rcases hsn : Shader.new d ty src s with ⟨r, s1⟩
    cases r with
    | error e =>
      rw [compileAll_cons_err hsn]
      have hc := Shader.new_counts_err hsn i
      simp only [liveOf, List.countP_nil]
      omega
    | ok sh =>
      rw [compileAll_cons_ok hsn]
      have hc := Shader.new_counts_ok hsn i
      have ihh := ih s1 i
      rcases hrec : SourceCompiler.compileAll d rest s1 with ⟨r1, s2⟩
      rw [hrec] at ihh
      cases r1 with
      | error ep =>
        obtain ⟨e, pend⟩ := ep
        simp only [liveOf, List.countP_cons, decide_eq_true_eq] at ihh ⊢
        rcases hc with ⟨hid, h1, h2, h3, h4⟩
        rw [hid]
        omega
      | ok shs =>
        simp only [liveOf, List.countP_cons, decide_eq_true_eq] at ihh ⊢
        rcases hc with ⟨hid, h1, h2, h3, h4⟩
        rw [hid]
        omega

lemma shaderNewErr_none {d : Driver} {ty : ShaderType} {src : List Nat}
    (h : shaderNewErr d ty src = none) :
    (0 : Nat) ∉ src ∧ d.compileOk ty src = true := by
  unfold shaderNewErr at h
  by_cases h1 : (0 : Nat) ∈ src
  · simp [h1] at h
  · by_cases h2 : d.compileOk ty src = true
    · exact ⟨h1, h2⟩
    · simp [h1, h2] at h

lemma compileAll_fail_fast (d : Driver) (ty : ShaderType) (src : List Nat)
    (e : ShaderCreationError) (post : List (ShaderType × List Nat))
    (hfail : shaderNewErr d ty src = some e) :
    ∀ pre : List (ShaderType × List Nat),
      (∀ p ∈ pre, shaderNewErr d p.1 p.2 = none) →
      ∀ s : GlState, ∃ pend s1,
        SourceCompiler.compileAll d (pre ++ (ty, src) :: post) s =
          (Except.error (e, pend), s1) ∧
        numShaderCreations s1.trace =
          numShaderCreations s.trace + pre.length +
            (if (0 : Nat) ∈ src then 0 else 1) := by
  intro pre
  induction pre with
  | nil =>
    intro _ s
    by_cases hnul : (0 : Nat) ∈ src
    · obtain rfl : ShaderCreationError.InvalidSource = e := by
        have hf := hfail
        unfold shaderNewErr at hf
        simpa [hnul] using hf
      refine ⟨[], s, ?_, ?_⟩
      · rw [List.nil_append]
        exact compileAll_cons_err (Shader.new_nul hnul)
      · simp [hnul]
    · by_cases hok : d.compileOk ty src = true
      · exfalso
        have hf := hfail
        unfold shaderNewErr at hf
        simp [hnul, hok] at hf
      · obtain rfl : shaderFailErr d ty src = e := by
          have hf := hfail
          unfold shaderNewErr at hf
          simpa [hnul, hok] using hf
        refine ⟨[],
          { s with nextId := s.nextId + 1,
                   trace := s.trace ++ [GlCall.createShader ty s.nextId,
                     GlCall.shaderSource s.nextId src, GlCall.compileShader s.nextId,
                     GlCall.deleteShader s.nextId] }, ?_, ?_⟩
        · rw [List.nil_append]
          exact compileAll_cons_err (Shader.new_fail hnul (by simpa using hok))
        · simp [hnul, numShaderCreations, List.countP_append, List.countP_cons, isShaderCreation]
  | cons hd tl ih =>
    intro hpre s
    obtain ⟨hty, hsrc⟩ := hd
    obtain ⟨hn, hc⟩ := shaderNewErr_none (hpre (hty, hsrc) (by simp))
    obtain ⟨pend, s2, heq, hcnt⟩ := ih (fun p hp => hpre p (List.mem_cons_of_mem _ hp))
      { s with nextId := s.nextId + 1,
               trace := s.trace ++ [GlCall.createShader hty s.nextId,
                 GlCall.shaderSource s.nextId hsrc, GlCall.compileShader s.nextId] }
    refine ⟨⟨s.nextId⟩ :: pend, s2, ?_, ?_⟩
    · rw [List.cons_append, compileAll_cons_ok (Shader.new_ok hn hc), heq]
    · rw [hcnt]
      simp [numShaderCreations, List.countP_append, List.countP_cons, isShaderCreation]
      omega

lemma countP_map_deleteShader (i : Handle) (l : List Shader) :
    List.countP (isDeleteShaderOf i ∘ fun sh => GlCall.deleteShader sh.id) l =
      List.countP (fun sh => decide (sh.id = i)) l := by
  induction l with
  | nil => rfl
  | cons a t ih => simp [List.countP_cons, ih, isDeleteShaderOf, Function.comp]

/-! ### Concrete states and driver oracles used by witnesses -/

/-- A fresh GL context: no object allocated yet, no program active. -/
def initState : GlState := { nextId := 1, active := 0, trace := [] }

/-- A driver that accepts only the source `[65]` and writes the log
`"log"` (nul-terminated) for every failed compile. -/
def dOneBad : Driver :=
  { compileOk := fun _ src => decide (src = [65]),
    shaderLogBuf := fun _ _ => [108, 111, 103, 0],
    linkOk := fun _ => true,
    programLogBuf := fun _ => [0] }

/-- A driver that rejects every compile and writes the non-UTF-8 log
buffer `[0xFF, 0x00]`. -/
def dBadLog : Driver :=
  { compileOk := fun _ _ => false,
    shaderLogBuf := fun _ _ => [255, 0],
    linkOk := fun _ => true,
    programLogBuf := fun _ => [0] }

/-- A driver that compiles everything but fails every link with the log
`"L"` (nul-terminated). -/
def dNoLink : Driver :=
  { compileOk := fun _ _ => true,
    shaderLogBuf := fun _ _ => [0],
    linkOk := fun _ => false,
    programLogBuf := fun _ => [76, 0] }

/-- A driver that accepts every compile and every link. -/
def dAllOk : Driver :=
  { compileOk := fun _ _ => true,
    shaderLogBuf := fun _ _ => [0],
    linkOk := fun _ => true,
    programLogBuf := fun _ => [0] }

/-! ### Claim theorems -/

/-- C1: for every input list in which some entry fails shader compilation
(all entries before it succeeding), `SourceCompiler.compile` returns
`SourceCompilerError::ShaderCreationError` wrapping the first failing
entry's error, and no shader object is ever created for an entry after the
first failing one: the number of `CreateShader` calls grows by exactly one
per preceding (successful) entry, plus one for the failing entry itself
unless it failed before any GPU call (embedded nul). -/
theorem SourceCompiler.compile_fail_fast (d : Driver)
    (pre post : List (ShaderType × List Nat)) (ty : ShaderType) (src : List Nat)
    (s : GlState) (e : ShaderCreationError)
    (hpre : ∀ p ∈ pre, shaderNewErr d p.1 p.2 = none)
    (hfail : shaderNewErr d ty src = some e) :
    (SourceCompiler.compile d (pre ++ (ty, src) :: post) s).1 =
      Except.error (SourceCompilerError.ShaderCreationError e) ∧
    numShaderCreations (SourceCompiler.compile d (pre ++ (ty, src) :: post) s).2.trace =
      numShaderCreations s.trace + pre.length +
        (if (0 : Nat) ∈ src then 0 else 1) := by
  obtain ⟨pend, s1, heq, hcnt⟩ := compileAll_fail_fast d ty src e post hfail pre hpre s
  simp only [SourceCompiler.compile, heq]
  refine ⟨by trivial, ?_⟩
  rw [dropShaders_eq]
  simp only [numShaderCreations, List.countP_append, List.countP_map] at hcnt ⊢
  have hz : List.countP (isShaderCreation ∘ fun sh => GlCall.deleteShader sh.id) pend = 0 := by
    simp [Function.comp, isShaderCreation]
  omega

/-- C1 witness: with a driver accepting only the source `[65]`, the list
`[good, bad, bad]` fails with the first bad entry's `CompileError`, and
only two shader objects are ever created. -/
theorem SourceCompiler.compile_fail_fast_witness :
    (SourceCompiler.compile dOneBad
        ([(ShaderType.Vertex, [65])] ++ (ShaderType.Fragment, [66]) ::
          [(ShaderType.Compute, [67])]) initState).1 =
      Except.error (SourceCompilerError.ShaderCreationError
        (ShaderCreationError.CompileError (lossyString [108, 111, 103]))) ∧
    numShaderCreations (SourceCompiler.compile dOneBad
        ([(ShaderType.Vertex, [65])] ++ (ShaderType.Fragment, [66]) ::
          [(ShaderType.Compute, [67])]) initState).2.trace =
      numShaderCreations initState.trace + [(ShaderType.Vertex, [65])].length +
        (if (0 : Nat) ∈ [66] then 0 else 1) :=
  SourceCompiler.compile_fail_fast dOneBad [(ShaderType.Vertex, [65])]
    [(ShaderType.Compute, [67])] ShaderType.Fragment [66] initState
    (ShaderCreationError.CompileError (lossyString [108, 111, 103]))
    (by decide) (by decide)

/-- C2: `Shader::new` returns `InvalidSource` exactly when the source text
contains an embedded nul byte, and in that case the GL state is completely
untouched (no GPU call, no shader object allocated). -/
theorem Shader.new_invalid_source_iff (d : Driver) (ty : ShaderType)
    (src : List Nat) (s : GlState) :
    ((Shader.new d ty src s).1 = Except.error ShaderCreationError.InvalidSource ↔
      (0 : Nat) ∈ src)
  ∧ ((0 : Nat) ∈ src → Shader.new d ty src s =
      (Except.error ShaderCreationError.InvalidSource, s)) := by
  by_cases hnul : (0 : Nat) ∈ src
  · simp [Shader.new_nul hnul, hnul]
  · refine ⟨⟨fun h => ?_, fun h => absurd h hnul⟩, fun h => absurd h hnul⟩
    by_cases hok : d.compileOk ty src = true
    · rw [Shader.new_ok hnul hok] at h
      simp at h
    · rw [Shader.new_fail hnul (by simpa using hok)] at h
      exact (shaderFailErr_ne_invalid d ty src (by simpa using h)).elim

/-- C2 witness: a source with an embedded nul fails with `InvalidSource`
and leaves the fresh context untouched. -/
theorem Shader.new_invalid_source_iff_witness :
    Shader.new dOneBad ShaderType.Vertex [65, 0, 66] initState =
      (Except.error ShaderCreationError.InvalidSource, initState) :=
  (Shader.new_invalid_source_iff dOneBad ShaderType.Vertex [65, 0, 66] initState).2
    (by decide)

/-- C3 counterexample: with a driver whose info-log buffer is
`[0xFF, 0x00]`, the raw log bytes `[0xFF]` cannot be decoded as valid
UTF-8 text, yet `Shader::new` does NOT return `InvalidInfoLog`: it returns
`CompileError` whose payload is the lossily altered string `U+FFFD`, not
the driver's bytes verbatim. -/
theorem Shader.new_log_text_counterexample :
    utf8IsValid [255] = false ∧
    cstrFromBytesWithNul (dBadLog.shaderLogBuf ShaderType.Vertex [65]) = some [255] ∧
    (Shader.new dBadLog ShaderType.Vertex [65] initState).1 =
      Except.error (ShaderCreationError.CompileError (String.mk [replChar])) ∧
    (Shader.new dBadLog ShaderType.Vertex [65] initState).1 ≠
      Except.error ShaderCreationError.InvalidInfoLog := by
  refine ⟨by decide, by decide, by decide, by decide⟩

/-- C3 amended: on a driver-reported compile failure, `Shader::new` returns
`InvalidInfoLog` exactly when the driver's log buffer is not a well-formed
nul-terminated C string (empty, missing trailing nul, or interior nul);
otherwise it returns `CompileError` carrying the log bytes (without the
trailing nul) decoded as UTF-8 lossily, with every invalid sequence
replaced by `U+FFFD` — so non-UTF-8 logs are silently altered rather than
rejected. -/
theorem Shader.new_compile_fail_log (d : Driver) (ty : ShaderType)
    (src : List Nat) (s : GlState)
    (h1 : (0 : Nat) ∉ src) (h2 : d.compileOk ty src = false) :
    ((Shader.new d ty src s).1 = Except.error ShaderCreationError.InvalidInfoLog ↔
      cstrFromBytesWithNul (d.shaderLogBuf ty src) = none)
  ∧ (∀ bytes, cstrFromBytesWithNul (d.shaderLogBuf ty src) = some bytes →
      (Shader.new d ty src s).1 =
        Except.error (ShaderCreationError.CompileError (lossyString bytes))) := by
  rw [Shader.new_fail h1 h2]
  cases hc : cstrFromBytesWithNul (d.shaderLogBuf ty src) <;>
    simp [shaderFailErr, hc]

/-- C3 amended witness: at the concrete non-UTF-8 log driver, the failing
compile yields `CompileError` with the lossily decoded log. -/
theorem Shader.new_compile_fail_log_witness :
    (Shader.new dBadLog ShaderType.Vertex [65] initState).1 =
      Except.error (ShaderCreationError.CompileError (lossyString [255])) :=
  (Shader.new_compile_fail_log dBadLog ShaderType.Vertex [65] initState
    (by decide) rfl).2 [255] (by decide)

/-- C4 counterexample: on the compile-failure path the created shader
object (handle 1 in a fresh context) is NOT leaked: the trace after
`Shader::new` returns contains exactly one `DeleteShader 1`, issued by
`Shader`'s `Drop` when the local value goes out of scope on the early
error return. -/
theorem Shader.new_fail_leak_counterexample :
    (Shader.new dOneBad ShaderType.Vertex [66] initState).1 =
      Except.error (ShaderCreationError.CompileError (lossyString [108, 111, 103])) ∧
    countCreateShader 1 (Shader.new dOneBad ShaderType.Vertex [66] initState).2.trace = 1 ∧
    countDeleteShader 1 (Shader.new dOneBad ShaderType.Vertex [66] initState).2.trace = 1 := by
  refine ⟨by decide, by decide, by decide⟩

/-- C4 amended: on the compile-failure path of `Shader::new`, the freshly
created GPU shader object is released exactly once (one `CreateShader` and
one matching `DeleteShader` are added to the trace) before the error is
returned — the object is not leaked. -/
theorem Shader.new_fail_releases (d : Driver) (ty : ShaderType)
    (src : List Nat) (s : GlState)
    (h1 : (0 : Nat) ∉ src) (h2 : d.compileOk ty src = false) :
    (Shader.new d ty src s).1 = Except.error (shaderFailErr d ty src) ∧
    countCreateShader s.nextId (Shader.new d ty src s).2.trace =
      countCreateShader s.nextId s.trace + 1 ∧
    countDeleteShader s.nextId (Shader.new d ty src s).2.trace =
      countDeleteShader s.nextId s.trace + 1 := by
  rw [Shader.new_fail h1 h2]
  refine ⟨rfl, ?_, ?_⟩ <;>
    simp [countCreateShader, countDeleteShader, List.countP_append, List.countP_cons,
      isCreateShaderOf, isDeleteShaderOf]

/-- C4 amended witness. -/
theorem Shader.new_fail_releases_witness :
    (Shader.new dBadLog ShaderType.Fragment [66] initState).1 =
      Except.error (shaderFailErr dBadLog ShaderType.Fragment [66]) ∧
    countCreateShader initState.nextId
        (Shader.new dBadLog ShaderType.Fragment [66] initState).2.trace =
      countCreateShader initState.nextId initState.trace + 1 ∧
    countDeleteShader initState.nextId
        (Shader.new dBadLog ShaderType.Fragment [66] initState).2.trace =
      countDeleteShader initState.nextId initState.trace + 1 :=
  Shader.new_fail_releases dBadLog ShaderType.Fragment [66] initState (by decide) rfl

/-- C5: dropping a `Program` first issues `UseProgram 0` (deactivate) and
then deletes its GPU program object exactly once; the active-program slot
is the `0` sentinel afterwards, for every prior state of the slot —
including when a different program (or none) was bound. -/
theorem Program.drop_spec (p : Program) (s : GlState) :
    Program.drop p s =
      { s with active := 0,
               trace := s.trace ++ [GlCall.useProgram 0, GlCall.deleteProgram p.id] }
  ∧ (Program.drop p s).active = 0
  ∧ countDeleteProgram p.id (Program.drop p s).trace =
      countDeleteProgram p.id s.trace + 1 := by
  refine ⟨?_, ?_, ?_⟩ <;>
    simp [Program.drop, Program.deactivate, glUseProgram, glDeleteProgram,
      countDeleteProgram, List.countP_append, List.countP_cons, isDeleteProgramOf]

/-- C6: `deactivate()` unconditionally sets the active-program slot to the
`0` sentinel for every program and every prior slot value, performing
exactly one `UseProgram 0` call and nothing else — it is total, with no
error condition. -/
theorem Program.deactivate_spec (p : Program) (s : GlState) :
    Program.deactivate p s =
      { s with active := 0, trace := s.trace ++ [GlCall.useProgram 0] }
  ∧ (Program.deactivate p s).active = 0 := by
  refine ⟨?_, ?_⟩ <;> simp [Program.deactivate, glUseProgram]

/-- C8: `deactivate()` is idempotent on the observable active-program
slot: after one call the slot is `0`, and a second call leaves it `0`. -/
theorem Program.deactivate_idem (p : Program) (s : GlState) :
    (Program.deactivate p (Program.deactivate p s)).active =
      (Program.deactivate p s).active
  ∧ (Program.deactivate p s).active = 0 := by
  refine ⟨?_, ?_⟩ <;> simp [Program.deactivate, glUseProgram]

/-- C7: `Program::link` creates exactly one new GPU program object (the
fresh handle `s.nextId`), attaches every input shader's handle to it in the
given order, then links; it returns the owning `Program` exactly when the
driver reports link success, and it never deletes (or detaches — no such
call exists in the code) any input shader. -/
theorem Program.link_spec (d : Driver) (shaders : List Shader) (s : GlState) :
    ((Program.link d shaders s).1 = Except.ok ⟨s.nextId⟩ ↔
      d.linkOk (shaders.map Shader.id) = true)
  ∧ (∃ tail, (Program.link d shaders s).2.trace =
      s.trace ++ GlCall.createProgram s.nextId ::
        (shaders.map (fun sh => GlCall.attachShader s.nextId sh.id) ++
          GlCall.linkProgram s.nextId :: tail))
  ∧ (∀ i, countCreateProgram i (Program.link d shaders s).2.trace =
      countCreateProgram i s.trace + if s.nextId = i then 1 else 0)
  ∧ (∀ i, countDeleteShader i (Program.link d shaders s).2.trace =
      countDeleteShader i s.trace) := by
  by_cases h : d.linkOk (shaders.map Shader.id) = true
  · rw [Program.link_ok h]
    refine ⟨by simp [h], ⟨[], by simp⟩, fun i => ?_, fun i => ?_⟩ <;>
      simp [countCreateProgram, countDeleteShader, List.countP_append, List.countP_cons,
        List.countP_map, isCreateProgramOf, isDeleteShaderOf, Function.comp]
  · rw [Program.link_fail (by simpa using h)]
    refine ⟨by simp [h], ⟨[GlCall.useProgram 0, GlCall.deleteProgram s.nextId], by simp⟩,
      fun i => ?_, fun i => ?_⟩ <;>
      simp [countCreateProgram, countDeleteShader, List.countP_append, List.countP_cons,
        List.countP_map, isCreateProgramOf, isDeleteShaderOf, Function.comp]

/-- C9: on every failure path of `Program::link` (driver-reported link
failure, whether the result is `LinkError` or `InvalidInfoLog`), the fresh
program object is dropped before the error is returned: the trace ends with
`UseProgram 0` (the drop's unconditional deactivate, clearing the
active-program slot — whatever was bound before) followed by
`DeleteProgram` of the fresh handle, and the final active slot is `0`. -/
theorem Program.link_fail_state (d : Driver) (shaders : List Shader) (s : GlState)
    (h : d.linkOk (shaders.map Shader.id) = false) :
    (Program.link d shaders s).1 =
      Except.error (programFailErr d (shaders.map Shader.id))
  ∧ (Program.link d shaders s).2.active = 0
  ∧ (Program.link d shaders s).2.trace =
      s.trace ++ GlCall.createProgram s.nextId ::
        (shaders.map (fun sh => GlCall.attachShader s.nextId sh.id) ++
          [GlCall.linkProgram s.nextId, GlCall.useProgram 0,
           GlCall.deleteProgram s.nextId]) := by
  rw [Program.link_fail h]
  exact ⟨rfl, rfl, rfl⟩

/-- C9 witness: a failed link in a context where program 7 was active
clears the active slot and deletes the fresh program object. -/
theorem Program.link_fail_state_witness :
    (Program.link dNoLink [Shader.mk 1] { nextId := 2, active := 7, trace := [] }).1 =
      Except.error (programFailErr dNoLink ([Shader.mk 1].map Shader.id))
  ∧ (Program.link dNoLink [Shader.mk 1] { nextId := 2, active := 7, trace := [] }).2.active = 0
  ∧ (Program.link dNoLink [Shader.mk 1] { nextId := 2, active := 7, trace := [] }).2.trace =
      [] ++ GlCall.createProgram 2 ::
        ([Shader.mk 1].map (fun sh => GlCall.attachShader 2 sh.id) ++
          [GlCall.linkProgram 2, GlCall.useProgram 0, GlCall.deleteProgram 2]) :=
  Program.link_fail_state dNoLink [Shader.mk 1] { nextId := 2, active := 7, trace := [] } rfl

/-- C10: by the time `SourceCompiler.compile` returns, every shader object
created during the call has been deleted exactly as often as it was created
(every intermediate `Shader` was dropped), and on success the returned
`Program`'s object was created exactly once during the call and never
deleted — it is the only GPU object handed to the caller. -/
theorem SourceCompiler.compile_releases (d : Driver)
    (srcs : List (ShaderType × List Nat)) (s : GlState) (i : Handle) :
    (countCreateShader i (SourceCompiler.compile d srcs s).2.trace +
        countDeleteShader i s.trace =
      countDeleteShader i (SourceCompiler.compile d srcs s).2.trace +
        countCreateShader i s.trace)
  ∧ (∀ p, (SourceCompiler.compile d srcs s).1 = Except.ok p →
      countCreateProgram p.id (SourceCompiler.compile d srcs s).2.trace =
        countCreateProgram p.id s.trace + 1 ∧
      countDeleteProgram p.id (SourceCompiler.compile d srcs s).2.trace =
        countDeleteProgram p.id s.trace) := by
  have hcA := compileAll_counts d srcs s i
  simp only [SourceCompiler.compile]
  rcases hca : SourceCompiler.compileAll d srcs s with ⟨r, s1⟩
  rw [hca] at hcA
  cases r with
  | error ep =>
    obtain ⟨e, pend⟩ := ep
    dsimp only
    simp only [liveOf] at hcA
    rw [dropShaders_eq]
    refine ⟨?_, fun p hp => by simp at hp⟩
    simp only [countCreateShader, countDeleteShader, List.countP_append, List.countP_map]
    have hzc : List.countP (isCreateShaderOf i ∘ fun sh => GlCall.deleteShader sh.id) pend
        = 0 := by
      simp [Function.comp, isCreateShaderOf]
    have hzd := countP_map_deleteShader i pend
    simp only [countCreateShader, countDeleteShader] at hcA
    omega
  | ok shaders =>
    have hcP := compileAll_counts d srcs s
    dsimp only
    try simp only [liveOf] at hcA
    by_cases hl : d.linkOk (shaders.map Shader.id) = true
    · simp only [Program.link_ok hl]
      try dsimp only
      rw [dropShaders_eq]
      constructor
      · simp only [countCreateShader, countDeleteShader, List.countP_append,
          List.countP_cons, List.countP_map] at hcA ⊢
        have hzc : List.countP (isCreateShaderOf i ∘ fun sh => GlCall.deleteShader sh.id)
            shaders = 0 := by
          simp [Function.comp, isCreateShaderOf]
        have hzd := countP_map_deleteShader i shaders
        have hza : List.countP (isCreateShaderOf i ∘ fun sh =>
            GlCall.attachShader s1.nextId sh.id) shaders = 0 := by
          simp [Function.comp, isCreateShaderOf]
        have hzb : List.countP (isDeleteShaderOf i ∘ fun sh =>
            GlCall.attachShader s1.nextId sh.id) shaders = 0 := by
          simp [Function.comp, isDeleteShaderOf]
        simp [isCreateShaderOf, isDeleteShaderOf, hzc, hzd, hza, hzb]
        omega
      · intro p hp
        obtain rfl : (⟨s1.nextId⟩ : Program) = p := by simpa using hp
        have hcp := hcP s1.nextId
        rw [hca] at hcp
        try simp only [liveOf] at hcp
        constructor <;>
        · simp only [countCreateProgram, countDeleteProgram, List.countP_append,
            List.countP_cons, List.countP_map] at hcp ⊢
          have hz1 : List.countP (isCreateProgramOf s1.nextId ∘ fun sh =>
              GlCall.attachShader s1.nextId sh.id) shaders = 0 := by
            simp [Function.comp, isCreateProgramOf]
          have hz2 : List.countP (isDeleteProgramOf s1.nextId ∘ fun sh =>
              GlCall.attachShader s1.nextId sh.id) shaders = 0 := by
            simp [Function.comp, isDeleteProgramOf]
          have hz3 : List.countP (isCreateProgramOf s1.nextId ∘ fun sh =>
              GlCall.deleteShader sh.id) shaders = 0 := by
            simp [Function.comp, isCreateProgramOf]
          have hz4 : List.countP (isDeleteProgramOf s1.nextId ∘ fun sh =>
              GlCall.deleteShader sh.id) shaders = 0 := by
            simp [Function.comp, isDeleteProgramOf]
          simp [isCreateProgramOf, isDeleteProgramOf, hz1, hz2, hz3, hz4]
          omega
    · simp only [Program.link_fail (by simpa using hl)]
      try dsimp only
      rw [dropShaders_eq]
      refine ⟨?_, fun p hp => by simp at hp⟩
      simp only [countCreateShader, countDeleteShader, List.countP_append,
        List.countP_cons, List.countP_map] at hcA ⊢
      have hzc : List.countP (isCreateShaderOf i ∘ fun sh => GlCall.deleteShader sh.id)
          shaders = 0 := by
        simp [Function.comp, isCreateShaderOf]
      have hzd := countP_map_deleteShader i shaders
      have hza : List.countP (isCreateShaderOf i ∘ fun sh =>
          GlCall.attachShader s1.nextId sh.id) shaders = 0 := by
        simp [Function.comp, isCreateShaderOf]
      have hzb : List.countP (isDeleteShaderOf i ∘ fun sh =>
          GlCall.attachShader s1.nextId sh.id) shaders = 0 := by
        simp [Function.comp, isDeleteShaderOf]
      simp [isCreateShaderOf, isDeleteShaderOf, hzc, hzd, hza, hzb]
      omega

/-- C10 witness: compiling two good sources in a fresh context balances the
shader create/delete counts for handle 1, and the returned program (handle
3) was created once and never deleted. -/
theorem SourceCompiler.compile_releases_witness :
    (countCreateShader 1 (SourceCompiler.compile dAllOk
        [(ShaderType.Vertex, [65]), (ShaderType.Fragment, [66])] initState).2.trace +
        countDeleteShader 1 initState.trace =
      countDeleteShader 1 (SourceCompiler.compile dAllOk
        [(ShaderType.Vertex, [65]), (ShaderType.Fragment, [66])] initState).2.trace +
        countCreateShader 1 initState.trace)
  ∧ (countCreateProgram (Program.mk 3).id (SourceCompiler.compile dAllOk
        [(ShaderType.Vertex, [65]), (ShaderType.Fragment, [66])] initState).2.trace =
      countCreateProgram (Program.mk 3).id initState.trace + 1 ∧
     countDeleteProgram (Program.mk 3).id (SourceCompiler.compile dAllOk
        [(ShaderType.Vertex, [65]), (ShaderType.Fragment, [66])] initState).2.trace =
      countDeleteProgram (Program.mk 3).id initState.trace) :=
  ⟨(SourceCompiler.compile_releases dAllOk
      [(ShaderType.Vertex, [65]), (ShaderType.Fragment, [66])] initState 1).1,
   (SourceCompiler.compile_releases dAllOk
      [(ShaderType.Vertex, [65]), (ShaderType.Fragment, [66])] initState 3).2
     (Program.mk 3) (by decide)⟩
